import Mathlib

/-!
Verification of the requirement-resolution engine of the MEA shipment-checklist
application (`src/app.py`).

The engine is a static rule table (baseline document requirements plus
per-country additions), a materialization step producing one resolved row per
(country, requirement) pair, a conjunctive four-dimension filter, and a
readiness-status computation over rows carrying a `provided` flag.  All of it
is pure and finite, so it embeds directly as computable Lean definitions.
-/

namespace MEA

/-- A document requirement, as the 7-tuples of `BASELINE_DOCS` and
`COUNTRY_SPECIFIC` in `src/app.py`: document name, mandatory flag
(`"Yes"`/`"Conditional"`), responsible party, transport-mode filter,
commodity filter, incoterm filter, free-text notes. -/
structure DocReq where
  document : String
  mandatory : String
  responsibility : String
  mode : String
  commodity : String
  incoterm : String
  notes : String
deriving DecidableEq

/-- A row of the materialized master table (`master_dataframe` in
`src/app.py`): a requirement bound to a country, with the two derived
country attributes (legalization label and risk flag). -/
structure Row where
  country : String
  document : String
  mandatory : String
  responsibility : String
  mode : String
  commodity : String
  incoterm : String
  notes : String
  legalization : String
  riskFlag : String
deriving DecidableEq

/-- The projection of an edited row that the status computation
(`src/app.py` lines 210-213) actually reads: the `Mandatory` column and
the `Provided?` checkbox. -/
structure StatusRow where
  mandatory : String
  provided : Bool
deriving DecidableEq

/-- `MIDDLE_EAST` country group (`src/app.py` line 40). -/
def MIDDLE_EAST : List String :=
  ["Bahrain", "Cyprus", "Iran", "Iraq", "Israel", "Jordan", "Kuwait", "Lebanon", "Oman",
   "Palestine", "Qatar", "Saudi Arabia", "Syria", "Turkey", "United Arab Emirates", "Yemen", "Egypt"]

/-- `AFRICA` country group (`src/app.py` line 44). -/
def AFRICA : List String :=
  ["Algeria", "Angola", "Benin", "Botswana", "Burkina Faso", "Burundi", "Cabo Verde", "Cameroon",
   "Central African Republic", "Chad", "Comoros", "Congo (Republic)", "Congo (DRC)", "Djibouti",
   "Equatorial Guinea", "Eritrea", "Eswatini", "Ethiopia", "Gabon", "Gambia", "Ghana", "Guinea",
   "Guinea-Bissau", "Côte d’Ivoire", "Kenya", "Lesotho", "Liberia", "Libya", "Madagascar",
   "Malawi", "Mali", "Mauritania", "Mauritius", "Morocco", "Mozambique", "Namibia", "Niger",
   "Nigeria", "Rwanda", "Sao Tome and Principe", "Senegal", "Seychelles", "Sierra Leone", "Somalia",
   "South Africa", "South Sudan", "Sudan", "Tanzania", "Togo", "Tunisia", "Uganda", "Zambia", "Zimbabwe"]

/-- Code-point lexicographic comparison on character lists: the order the Python sorted builtin uses on strings (`sorted(list(set(...)))`, `src/app.py` line 53). -/
def strLtAux : List Char → List Char → Bool
  | [], [] => false
  | [], _ :: _ => true
  | _ :: _, [] => false
  | a :: as, b :: bs =>
    if a.toNat < b.toNat then true
    else if b.toNat < a.toNat then false
    else strLtAux as bs

/-- Code-point lexicographic order on strings. -/
def strLt (a b : String) : Bool := strLtAux a.data b.data

/-- Insert a string into a sorted duplicate-free list, keeping it sorted and
duplicate-free. -/
def insDedup (s : String) : List String → List String
  | [] => [s]
  | t :: ts =>
    if s = t then t :: ts
    else if strLt s t then s :: t :: ts
    else t :: insDedup s ts

/-- Sort a list of strings in code-point lexicographic order, dropping
duplicates: the semantics of the Python expression `sorted(list(set(l)))`. -/
def sortDedup : List String → List String
  | [] => []
  | s :: ss => insDedup s (sortDedup ss)

/-- `ALL_COUNTRIES = sorted(list(set(MIDDLE_EAST) | set(AFRICA)))`
(`src/app.py` line 53): the deduplicated union of the two groups, sorted
lexicographically. -/
def ALL_COUNTRIES : List String := sortDedup (MIDDLE_EAST ++ AFRICA)

/-- `INCOTERMS` (`src/app.py` line 55). -/
def INCOTERMS : List String :=
  ["EXW", "FCA", "FOB", "CFR", "CIF", "CPT", "CIP", "DAP", "DPU", "DDP"]

/-- `MODES` (`src/app.py` line 56). -/
def MODES : List String := ["Air", "Sea", "Courier"]

/-- `COMMODITIES` (`src/app.py` line 57). -/
def COMMODITIES : List String :=
  ["General Electronics", "Batteries (DG)", "Chemicals (DG)", "Telecom/Radio", "Other"]

/-- `LEGALIZATION_NEEDED` (`src/app.py` line 59); only membership is ever
used, so a list models the Python set. -/
def LEGALIZATION_NEEDED : List String :=
  ["Jordan", "Lebanon", "Iraq", "Palestine", "Syria", "Yemen", "Libya", "Tunisia", "Algeria", "Egypt", "Morocco"]

/-- `SANCTIONS_COUNTRIES` (`src/app.py` line 60). -/
def SANCTIONS_COUNTRIES : List String :=
  ["Iran", "Syria", "Libya", "Sudan", "South Sudan"]

/-- `BASELINE_DOCS` (`src/app.py` lines 62-77), in source order.  Note the
`"Insurance Certificate"` entry: its sixth (incoterm) field holds the free
text `"CIF/CIP or when risk transfers pre-delivery."` exactly as in the
source. -/
def BASELINE_DOCS : List DocReq :=
  [⟨"Commercial Invoice", "Yes", "Shipper", "Any", "Any", "Any", "Signed & stamped; English unless required otherwise."⟩,
   ⟨"Packing List", "Yes", "Shipper", "Any", "Any", "Any", "Itemized with qty, net/gross weight, dimensions."⟩,
   ⟨"Certificate of Origin (COO)", "Yes", "Shipper", "Any", "Any", "Any", "Chamber of Commerce stamped; legalization may be requested."⟩,
   ⟨"HS Codes Confirmed", "Yes", "Shipper", "Any", "Any", "Any", "Ensure correct 8–10 digit HS per line item."⟩,
   ⟨"Product Description & Model/PN", "Yes", "Shipper", "Any", "Any", "Any", "Must match invoice & PL exactly."⟩,
   ⟨"Export Declaration (origin)", "Yes", "Shipper", "Any", "Any", "Any", "EX1/SAD or origin equivalent."⟩,
   ⟨"Transport Document", "Yes", "Shipper", "Air", "Any", "Any", "AWB for Air/Courier."⟩,
   ⟨"Transport Document", "Yes", "Shipper", "Sea", "Any", "Any", "Original B/L or telex release for Sea."⟩,
   ⟨"Transport Document", "Yes", "Shipper", "Courier", "Any", "Any", "Courier waybill/label."⟩,
   ⟨"Insurance Certificate", "Conditional", "Shipper", "Any", "Any", "CIF/CIP or when risk transfers pre-delivery.", "Provide if terms require seller insurance."⟩,
   ⟨"Dangerous Goods Declaration", "Conditional", "Shipper", "Air", "Batteries (DG)", "Any", "IATA DGD for DG shipments."⟩,
   ⟨"IMDG/Sea DG Declaration", "Conditional", "Shipper", "Sea", "Batteries (DG)", "Any", "IMDG declaration for sea DG."⟩,
   ⟨"MSDS/SDS", "Conditional", "Shipper", "Any", "Batteries (DG)", "Any", "Safety Data Sheet for batteries/chemicals."⟩,
   ⟨"Radio/Telecom Type Approval", "Conditional", "Importer", "Any", "Telecom/Radio", "Any", "Importer may need local approval for RF/telecom."⟩]

/-- The `"Insurance Certificate"` baseline entry (`src/app.py` line 72). -/
def insuranceDoc : DocReq :=
  ⟨"Insurance Certificate", "Conditional", "Shipper", "Any", "Any", "CIF/CIP or when risk transfers pre-delivery.", "Provide if terms require seller insurance."⟩

/-- Entry appended for the six GCC countries (`src/app.py` line 82). -/
def gccInvoiceAttested : DocReq :=
  ⟨"Commercial Invoice (Attested)", "Yes", "Shipper", "Any", "Any", "Any", "Chamber of Commerce attestation commonly requested."⟩

/-- Entry appended for the six GCC countries (`src/app.py` line 83). -/
def gccCOOLegalized : DocReq :=
  ⟨"COO (Legalized)", "Conditional", "Shipper", "Any", "Any", "Any", "Legalize via embassy/consulate if requested by importer."⟩

/-- Entry appended for Jordan/Lebanon/Iraq/Palestine/Syria/Yemen
(`src/app.py` line 90). -/
def levantLegalization : DocReq :=
  ⟨"Invoice & COO Legalization", "Conditional", "Shipper", "Any", "Any", "Any", "Embassy legalization often required."⟩

/-- Entry appended for Kenya/Tanzania/Uganda/Rwanda/Burundi
(`src/app.py` line 108). -/
def pvocDoc : DocReq :=
  ⟨"PVoC Certificate (regulated)", "Conditional", "Importer", "Any", "Any", "Any", "Pre-Export Verification of Conformity."⟩

/-- Entry appended for Tanzania/Uganda (`src/app.py` line 111). -/
def eastAfricaImportPermit : DocReq :=
  ⟨"Import Permit (batteries/chemicals)", "Conditional", "Importer", "Any", "Batteries (DG)", "Any", "Check local authority for hazardous goods."⟩

/-- Entry appended for the four SACU countries (`src/app.py` line 126). -/
def sacuImportPermit : DocReq :=
  ⟨"Import Permit (regulated)", "Conditional", "Importer", "Any", "Any", "Any", "Permits for selected goods (SACU)."⟩

/-- Entry appended for the nine West African countries (`src/app.py` line 128);
its notes end with a space, exactly as in the source. -/
def westAfricaVoc : DocReq :=
  ⟨"VoC/CoC (regulated)", "Conditional", "Importer", "Any", "Any", "Any", "Verification/Certificate of Conformity via appointed agencies. "⟩

/-- Entry appended for the seven Central African countries
(`src/app.py` line 130). -/
def centralAfricaVoc : DocReq :=
  ⟨"VoC/CoC (regulated)", "Conditional", "Importer", "Any", "Any", "Any", "Pre-shipment conformity assessment common."⟩

/-- Entry appended for Somalia/Sudan/South Sudan/Eritrea/Djibouti
(`src/app.py` line 132). -/
def hornLegalized : DocReq :=
  ⟨"Legalized Invoice & COO", "Conditional", "Shipper", "Any", "Any", "Any", "Embassy/consulate legalization often required."⟩

/-- Entry appended for Cabo Verde/Sao Tome and Principe/Comoros
(`src/app.py` lines 135-137). -/
def islandImportPermit : DocReq :=
  ⟨"Import Permit (regulated)", "Conditional", "Importer", "Any", "Any", "Any", "Importer secures permit where required."⟩

/-- The `COUNTRY_SPECIFIC` dictionary of `src/app.py` (lines 79-137) as an
association list: for each country with a non-empty list of appended entries,
the concatenation of every entry appended to it, in source order.  Countries
absent here accumulated no entries and keep the empty default of line 79. -/
def COUNTRY_SPECIFIC_TABLE : List (String × List DocReq) :=
  [("Bahrain", [gccInvoiceAttested, gccCOOLegalized]),
   ("Kuwait", [gccInvoiceAttested, gccCOOLegalized,
     ⟨"KUCAS/PAI Conformity (regulated)", "Conditional", "Importer", "Any", "Any", "Any", "Public Authority for Industry compliance."⟩]),
   ("Oman", [gccInvoiceAttested, gccCOOLegalized,
     ⟨"Import Permit (DG/chemicals)", "Conditional", "Importer", "Any", "Batteries (DG)", "Any", "Check ROP/DGSM based on commodity."⟩]),
   ("Qatar", [gccInvoiceAttested, gccCOOLegalized,
     ⟨"Product Compliance Pre-Approval (regulated)", "Conditional", "Importer", "Any", "Telecom/Radio", "Any", "Required for some electronics/telecom."⟩]),
   ("Saudi Arabia", [gccInvoiceAttested, gccCOOLegalized,
     ⟨"SABER/SALEEM CoC (regulated goods)", "Conditional", "Importer", "Any", "Any", "Any", "Conformity & shipment certification via SABER."⟩]),
   ("United Arab Emirates", [gccInvoiceAttested, gccCOOLegalized]),
   ("Jordan", [levantLegalization]),
   ("Lebanon", [levantLegalization]),
   ("Iraq", [levantLegalization]),
   ("Palestine", [levantLegalization]),
   ("Syria", [levantLegalization]),
   ("Yemen", [levantLegalization]),
   ("Israel", [⟨"SII Approval (regulated electronics)", "Conditional", "Importer", "Any", "Telecom/Radio", "Any", "Israel Standards Institute approvals."⟩]),
   ("Turkey", [⟨"ATR or EUR.1 (if applicable)", "Conditional", "Shipper", "Any", "Any", "Any", "Preferential origin doc for Customs Union/EU origin."⟩,
     ⟨"Import License (telecom/RF, if applicable)", "Conditional", "Importer", "Any", "Telecom/Radio", "Any", "Permit for radio/telecom equipment when required."⟩]),
   ("Egypt", [⟨"ACID Number", "Yes", "Importer", "Any", "Any", "Any", "Advance Cargo Information Declaration (Nafeza)."⟩,
     ⟨"Invoice & COO Legalized", "Conditional", "Shipper", "Any", "Any", "Any", "Arabic details often required; legalize via embassy."⟩]),
   ("Morocco", [⟨"VoC/Conformity (regulated)", "Conditional", "Importer", "Any", "Any", "Any", "Verification of Conformity where applicable."⟩,
     ⟨"Arabic/French Invoice Copy", "Conditional", "Shipper", "Any", "Any", "Any", "Language preference for customs clarity."⟩]),
   ("Tunisia", [⟨"Arabic/French Invoice Copy", "Conditional", "Shipper", "Any", "Any", "Any", "Language preference; legalization may be requested."⟩]),
   ("Algeria", [⟨"Arabic/French Invoice Copy", "Conditional", "Shipper", "Any", "Any", "Any", "Language preference; bank domiciliation may be requested."⟩]),
   ("Libya", [⟨"Legalized Documents", "Conditional", "Shipper", "Any", "Any", "Any", "Embassy legalization commonly required."⟩]),
   ("Kenya", [pvocDoc,
     ⟨"IDF (Import Declaration Form)", "Yes", "Importer", "Any", "Any", "Any", "Importer obtains; include on docs."⟩]),
   ("Tanzania", [pvocDoc, eastAfricaImportPermit]),
   ("Uganda", [pvocDoc, eastAfricaImportPermit]),
   ("Rwanda", [pvocDoc]),
   ("Burundi", [pvocDoc]),
   ("Nigeria", [⟨"Form M", "Yes", "Importer", "Any", "Any", "Any", "Initiated by importer; must match invoice HS."⟩,
     ⟨"SONCAP (regulated)", "Conditional", "Importer", "Any", "Any", "Any", "Standards Org. of Nigeria Conformity Assessment."⟩,
     ⟨"PAAR", "Yes", "Importer", "Any", "Any", "Any", "Pre-Arrival Assessment Report (Customs)."⟩]),
   ("Ghana", [⟨"G-CAP/CoC (regulated)", "Conditional", "Importer", "Any", "Any", "Any", "Conformity programme for selected goods."⟩]),
   ("Ethiopia", [⟨"ECAE CoC (regulated)", "Conditional", "Importer", "Any", "Any", "Any", "Conformity for selected goods."⟩]),
   ("South Africa", [⟨"NRCS LOA/SABS (regulated)", "Conditional", "Importer", "Any", "Any", "Any", "Letters of Authority/Approvals for certain categories."⟩,
     ⟨"Import Permit (batteries/chemicals)", "Conditional", "Importer", "Any", "Batteries (DG)", "Any", "Regulator permits for hazardous goods."⟩]),
   ("Zimbabwe", [⟨"CBCA Certificate (regulated)", "Conditional", "Importer", "Any", "Any", "Any", "Consignment Based Conformity Assessment."⟩]),
   ("Zambia", [⟨"ZABS CoC (regulated)", "Conditional", "Importer", "Any", "Any", "Any", "Bureau of Standards conformity for selected goods."⟩]),
   ("Botswana", [sacuImportPermit]),
   ("Lesotho", [sacuImportPermit]),
   ("Namibia", [sacuImportPermit]),
   ("Eswatini", [sacuImportPermit]),
   ("Senegal", [westAfricaVoc]),
   ("Côte d’Ivoire", [westAfricaVoc]),
   ("Mali", [westAfricaVoc]),
   ("Burkina Faso", [westAfricaVoc]),
   ("Niger", [westAfricaVoc]),
   ("Guinea", [westAfricaVoc]),
   ("Guinea-Bissau", [westAfricaVoc]),
   ("Togo", [westAfricaVoc]),
   ("Benin", [westAfricaVoc]),
   ("Cameroon", [centralAfricaVoc]),
   ("Gabon", [centralAfricaVoc]),
   ("Congo (Republic)", [centralAfricaVoc]),
   ("Congo (DRC)", [centralAfricaVoc]),
   ("Chad", [centralAfricaVoc]),
   ("Central African Republic", [centralAfricaVoc]),
   ("Equatorial Guinea", [centralAfricaVoc]),
   ("Somalia", [hornLegalized]),
   ("Sudan", [hornLegalized]),
   ("South Sudan", [hornLegalized]),
   ("Eritrea", [hornLegalized]),
   ("Djibouti", [hornLegalized]),
   ("Mauritius", [⟨"Import Permit (regulated)", "Conditional", "Importer", "Any", "Any", "Any", "Permits for regulated electronics/telecom as required."⟩]),
   ("Seychelles", [⟨"Import Permit (regulated)", "Conditional", "Importer", "Any", "Any", "Any", "Permits for hazardous or regulated goods. "⟩]),
   ("Cabo Verde", [islandImportPermit]),
   ("Sao Tome and Principe", [islandImportPermit]),
   ("Comoros", [islandImportPermit])]

/-- First-match association-list lookup, the semantics of a Python dict
read. -/
def lookupTable : List (String × List DocReq) → String → Option (List DocReq)
  | [], _ => none
  | (k, v) :: es, c => if c == k then some v else lookupTable es c

/-- `COUNTRY_SPECIFIC.get(country, [])` (`src/app.py` line 147): the
country-specific entries of a country, `[]` for countries with none. -/
def COUNTRY_SPECIFIC (c : String) : List DocReq :=
  (lookupTable COUNTRY_SPECIFIC_TABLE c).getD []

/-- One materialized row (`src/app.py` lines 144-146 and 148-150): the
fields of the requirement bound to the country plus the two derived labels. -/
def mkRow (country : String) (d : DocReq) : Row :=
  { country := country
    document := d.document
    mandatory := d.mandatory
    responsibility := d.responsibility
    mode := d.mode
    commodity := d.commodity
    incoterm := d.incoterm
    notes := d.notes
    legalization := if LEGALIZATION_NEEDED.contains country then "Likely" else "As requested"
    riskFlag := if SANCTIONS_COUNTRIES.contains country then "Sanctions/Export-Control Screen" else "None" }

/-- The rows one country contributes to the master table (the two inner
loops of `master_dataframe`, `src/app.py` lines 143-150): all baseline
requirements in order, then the country-specific ones in order. -/
def countryBlock (country : String) : List Row :=
  BASELINE_DOCS.map (mkRow country) ++ (COUNTRY_SPECIFIC country).map (mkRow country)

/-- `master_dataframe()` (`src/app.py` lines 139-151): for each country in
`ALL_COUNTRIES` order, all baseline rows in order, then the specific rows of that country in order. -/
def master_dataframe : List Row :=
  ALL_COUNTRIES.flatMap countryBlock

/-- The row predicate of `filter_rows` (`src/app.py` lines 154-157):
exact country match, and `Any`-or-exact match on mode, commodity and
incoterm, conjoined in source order. -/
def rowMatches (country incoterm mode commodity : String) (r : Row) : Bool :=
  (r.country == country)
    && (r.mode == "Any" || r.mode == mode)
    && (r.commodity == "Any" || r.commodity == commodity)
    && (r.incoterm == "Any" || r.incoterm == incoterm)

/-- `filter_rows(df, country, incoterm, mode, commodity)`
(`src/app.py` lines 153-158): the subsequence of rows satisfying the
conjunctive mask, in input order. -/
def filter_rows (rows : List Row) (country incoterm mode commodity : String) : List Row :=
  rows.filter (rowMatches country incoterm mode commodity)

/-- The three readiness states of the status expression
(`src/app.py` line 213): `READY`, `No mandatory docs`, and
`PENDING (provided/total)` with its two counters. -/
inductive Status where
  | ready : Status
  | noMandatoryDocs : Status
  | pending : Nat → Nat → Status
deriving DecidableEq

/-- `mandatory_total` (`src/app.py` lines 210-211): the number of rows whose
`Mandatory` column equals `"Yes"`. -/
def mandatoryTotal (rows : List StatusRow) : Nat :=
  rows.countP fun r => r.mandatory == "Yes"

/-- `provided_yes` (`src/app.py` line 212): the number of rows that are both
marked provided and mandatory `"Yes"`. -/
def providedYes (rows : List StatusRow) : Nat :=
  rows.countP fun r => r.provided && r.mandatory == "Yes"

/-- The status expression (`src/app.py` line 213): `READY` when there are
mandatory rows and all are provided, otherwise `No mandatory docs` when
there are none, otherwise `PENDING (provided_yes/mandatory_total)`. -/
def status (rows : List StatusRow) : Status :=
  if 0 < mandatoryTotal rows ∧ providedYes rows = mandatoryTotal rows then Status.ready
  else if mandatoryTotal rows = 0 then Status.noMandatoryDocs
  else Status.pending (providedYes rows) (mandatoryTotal rows)

/-- Two status-row sequences that differ at most in the `provided` flag of
rows whose `mandatory` value is `"Conditional"`: same length, pointwise equal
`mandatory`, and pointwise equal `provided` except possibly on
`"Conditional"` rows. -/
def sameUpToConditionalProvided : List StatusRow → List StatusRow → Bool
  | [], [] => true
  | x :: xs, y :: ys =>
    (x.mandatory == y.mandatory)
      && (x.provided == y.provided || x.mandatory == "Conditional")
      && sameUpToConditionalProvided xs ys
  | _, _ => false

/-- The filtered checklist of the United Arab Emirates scenario of the spec:
country `"United Arab Emirates"`, incoterm `"DAP"`, mode `"Air"`,
commodity `"General Electronics"`. -/
def uaeFiltered : List Row :=
  filter_rows master_dataframe "United Arab Emirates" "DAP" "Air" "General Electronics"

/-! ### Order facts for the code-point comparison used by the country sort -/

lemma strLtAux_nil_right : ∀ a : List Char, strLtAux a [] = false := by
  intro a
  cases a <;> rfl

lemma strLtAux_irrefl : ∀ l : List Char, strLtAux l l = false := by
  intro l
  induction l with
  | nil => rfl
  | cons a as ih => simp [strLtAux, Nat.lt_irrefl, ih]

lemma strLtAux_trans (a b c : List Char) (h1 : strLtAux a b = true)
    (h2 : strLtAux b c = true) : strLtAux a c = true := by
  induction a generalizing b c with
  | nil =>
    cases c with
    | nil =>
      cases b with
      | nil => simp [strLtAux] at h1
      | cons y ys => rw [strLtAux_nil_right] at h2; cases h2
    | cons z zs => rfl
  | cons x xs ih =>
    cases b with
    | nil => rw [strLtAux_nil_right] at h1; cases h1
    | cons y ys =>
      cases c with
      | nil => rw [strLtAux_nil_right] at h2; cases h2
      | cons z zs =>
        simp only [strLtAux] at h1 h2 ⊢
        split_ifs at h1 h2 ⊢ <;>
          first
          | rfl
          | omega
          | exact ih ys zs h1 h2
          | exact absurd h1 Bool.false_ne_true
          | exact absurd h2 Bool.false_ne_true

lemma strLtAux_conn (a b : List Char) (h1 : strLtAux a b = false)
    (h2 : strLtAux b a = false) : a = b := by
  induction a generalizing b with
  | nil =>
    cases b with
    | nil => rfl
    | cons y ys => simp [strLtAux] at h1
  | cons x xs ih =>
    cases b with
    | nil => simp [strLtAux] at h2
    | cons y ys =>
      simp only [strLtAux] at h1 h2
      split_ifs at h1 h2 <;>
        first
        | omega
        | exact absurd h1 Bool.true_ne_false
        | exact absurd h2 Bool.true_ne_false
        | (have hxy : x.toNat = y.toNat := by omega
           have hxy2 : x = y := Char.ext (UInt32.toNat.inj hxy)
           rw [hxy2, ih ys h1 h2])

lemma strLt_irrefl (s : String) : strLt s s = false := strLtAux_irrefl _

lemma strLt_trans (a b c : String) (h1 : strLt a b = true) (h2 : strLt b c = true) :
    strLt a c = true := strLtAux_trans _ _ _ h1 h2

lemma strLt_conn (a b : String) (h1 : strLt a b = false) (h2 : strLt b a = false) :
    a = b := String.ext (strLtAux_conn _ _ h1 h2)

/-! ### The sorted deduplicated country list -/

lemma mem_insDedup (a s : String) (l : List String) :
    a ∈ insDedup s l ↔ a = s ∨ a ∈ l := by
  induction l with
  | nil => simp [insDedup]
  | cons t ts ih =>
    simp only [insDedup]
    split_ifs with h1 h2
    · subst h1
      simp only [List.mem_cons]
      tauto
    · simp only [List.mem_cons]
    · simp only [List.mem_cons, ih]
      tauto

lemma pairwise_insDedup (s : String) (l : List String)
    (h : l.Pairwise (fun a b => strLt a b = true)) :
    (insDedup s l).Pairwise (fun a b => strLt a b = true) := by
  induction l with
  | nil => simp [insDedup]
  | cons t ts ih =>
    rw [List.pairwise_cons] at h
    obtain ⟨ht, hts⟩ := h
    simp only [insDedup]
    split_ifs with h1 h2
    · exact List.pairwise_cons.mpr ⟨ht, hts⟩
    · refine List.pairwise_cons.mpr ⟨?_, List.pairwise_cons.mpr ⟨ht, hts⟩⟩
      intro b hb
      rcases List.mem_cons.mp hb with rfl | hb2
      · exact h2
      · exact strLt_trans _ _ _ h2 (ht b hb2)
    · have h2f : strLt s t = false := by simpa using h2
      have h3 : strLt t s = true := by
        by_contra hc
        have hts0 : strLt t s = false := by simpa using hc
        exact h1 (strLt_conn _ _ h2f hts0)
      refine List.pairwise_cons.mpr ⟨?_, ih hts⟩
      intro b hb
      rcases (mem_insDedup b s ts).mp hb with rfl | hb2
      · exact h3
      · exact ht b hb2

lemma pairwise_sortDedup (l : List String) :
    (sortDedup l).Pairwise (fun a b => strLt a b = true) := by
  induction l with
  | nil => simp [sortDedup]
  | cons s ss ih => exact pairwise_insDedup s _ ih

lemma mem_sortDedup (a : String) (l : List String) :
    a ∈ sortDedup l ↔ a ∈ l := by
  induction l with
  | nil => simp [sortDedup]
  | cons s ss ih =>
    simp only [sortDedup, mem_insDedup, ih, List.mem_cons]

lemma nodup_sortDedup (l : List String) : (sortDedup l).Nodup := by
  apply List.Pairwise.imp ?_ (pairwise_sortDedup l)
  intro a b hab
  intro he
  rw [he, strLt_irrefl] at hab
  cases hab

lemma allCountries_pairwise :
    ALL_COUNTRIES.Pairwise (fun a b => strLt a b = true) := pairwise_sortDedup _

lemma allCountries_nodup : ALL_COUNTRIES.Nodup := nodup_sortDedup _

lemma mem_allCountries (s : String) :
    s ∈ ALL_COUNTRIES ↔ s ∈ MIDDLE_EAST ∨ s ∈ AFRICA := by
  rw [ALL_COUNTRIES, mem_sortDedup, List.mem_append]

/-! ### Boolean helpers -/

lemma band_true {a b : Bool} (h : (a && b) = true) : a = true ∧ b = true := by
  simp only [Bool.and_eq_true] at h
  exact h

lemma bor_true {a b : Bool} (h : (a || b) = true) : a = true ∨ b = true := by
  simp only [Bool.or_eq_true] at h
  exact h

/-! ### Rule-store lemmas -/

lemma lookupTable_mem (l : List (String × List DocReq)) (c : String) (v : List DocReq)
    (h : lookupTable l c = some v) : (c, v) ∈ l := by
  induction l with
  | nil => simp [lookupTable] at h
  | cons e es ih =>
    obtain ⟨k, w⟩ := e
    simp only [lookupTable] at h
    split_ifs at h with hck
    · have hk : c = k := by simpa using hck
      have hv : w = v := by simpa using h
      rw [List.mem_cons]
      left
      rw [hk, hv]
    · exact List.mem_cons.mpr (Or.inr (ih h))

lemma country_specific_forall (P : DocReq → Prop)
    (hP : ∀ e ∈ COUNTRY_SPECIFIC_TABLE, ∀ d ∈ e.2, P d) :
    ∀ c : String, ∀ d ∈ COUNTRY_SPECIFIC c, P d := by
  intro c d hd
  rw [COUNTRY_SPECIFIC] at hd
  cases hl : lookupTable COUNTRY_SPECIFIC_TABLE c with
  | none => rw [hl] at hd; simp at hd
  | some v =>
    rw [hl] at hd
    exact hP (c, v) (lookupTable_mem _ _ _ hl) d hd

/-- No country-specific entry is named `"Transport Document"` or
`"Insurance Certificate"`. -/
lemma specific_doc_names :
    ∀ c : String, ∀ d ∈ COUNTRY_SPECIFIC c,
      d.document ≠ "Transport Document" ∧ d.document ≠ "Insurance Certificate" :=
  country_specific_forall _ (by decide)

/-! ### Master-table lemmas -/

lemma mem_countryBlock {x : String} {r : Row} :
    r ∈ countryBlock x ↔ ∃ d ∈ BASELINE_DOCS ++ COUNTRY_SPECIFIC x, mkRow x d = r := by
  constructor
  · intro h
    rcases List.mem_append.mp h with h2 | h2
    · obtain ⟨d, hd, he⟩ := List.mem_map.mp h2
      exact ⟨d, List.mem_append.mpr (Or.inl hd), he⟩
    · obtain ⟨d, hd, he⟩ := List.mem_map.mp h2
      exact ⟨d, List.mem_append.mpr (Or.inr hd), he⟩
  · rintro ⟨d, hd, rfl⟩
    rcases List.mem_append.mp hd with h2 | h2
    · exact List.mem_append.mpr (Or.inl (List.mem_map.mpr ⟨d, h2, rfl⟩))
    · exact List.mem_append.mpr (Or.inr (List.mem_map.mpr ⟨d, h2, rfl⟩))

lemma countryBlock_country {x : String} {r : Row} (h : r ∈ countryBlock x) :
    r.country = x := by
  obtain ⟨d, _, he⟩ := mem_countryBlock.mp h
  rw [← he]
  rfl

lemma mem_master {r : Row} :
    r ∈ master_dataframe ↔
      ∃ c ∈ ALL_COUNTRIES, ∃ d ∈ BASELINE_DOCS ++ COUNTRY_SPECIFIC c, mkRow c d = r := by
  rw [master_dataframe, List.mem_flatMap]
  constructor
  · rintro ⟨c, hc, hr⟩
    exact ⟨c, hc, mem_countryBlock.mp hr⟩
  · rintro ⟨c, hc, hd⟩
    exact ⟨c, hc, mem_countryBlock.mpr hd⟩

lemma rowMatches_country {c i m co : String} {r : Row}
    (h : rowMatches c i m co r = true) : r.country = c := by
  have h1 := (band_true (band_true (band_true h).1).1).1
  simpa using h1

/-- Filtering the whole master table with a predicate that forces an exact
country match keeps only the block of that country: blocks of other countries
contribute nothing. -/
lemma filter_blocks (p : Row → Bool) (c : String)
    (hp : ∀ r, p r = true → r.country = c) :
    ∀ cs : List String, cs.Nodup → c ∈ cs →
      (cs.flatMap countryBlock).filter p = (countryBlock c).filter p := by
  have hblocknil : ∀ y, y ≠ c → (countryBlock y).filter p = [] := by
    intro y hy
    rw [List.filter_eq_nil_iff]
    intro r hr hpr
    apply hy
    rw [← countryBlock_country hr]
    exact hp r hpr
  intro cs
  induction cs with
  | nil =>
    intro _ hc
    simp at hc
  | cons x xs ih =>
    intro hnd hc
    obtain ⟨hnx, hnxs⟩ := List.nodup_cons.mp hnd
    rw [List.flatMap_cons, List.filter_append]
    rcases List.mem_cons.mp hc with hcx | hc2
    · have hrest : (xs.flatMap countryBlock).filter p = [] := by
        rw [List.filter_eq_nil_iff]
        intro r hr hpr
        obtain ⟨y, hy, hry⟩ := List.mem_flatMap.mp hr
        have hyc : y = c := by
          rw [← countryBlock_country hry]
          exact hp r hpr
        apply hnx
        rw [← hcx, ← hyc]
        exact hy
      rw [hrest, List.append_nil, ← hcx]
    · have hxc : x ≠ c := fun he => hnx (he ▸ hc2)
      rw [hblocknil x hxc, List.nil_append, ih hnxs hc2]

/-- `filter_rows` on the master table reduces to filtering the selected
block of the selected country. -/
lemma filter_rows_master (c i m co : String) (hc : c ∈ ALL_COUNTRIES) :
    filter_rows master_dataframe c i m co = (countryBlock c).filter (rowMatches c i m co) :=
  filter_blocks _ c (fun _ h => rowMatches_country h) ALL_COUNTRIES allCountries_nodup hc

/-! ### Status lemmas -/

lemma providedYes_le (l : List StatusRow) : providedYes l ≤ mandatoryTotal l := by
  apply List.countP_mono_left
  intro r _ h
  exact (band_true h).2

lemma status_noMandatory_iff (l : List StatusRow) :
    status l = Status.noMandatoryDocs ↔ mandatoryTotal l = 0 := by
  unfold status
  split_ifs with h1 h2
  · exact iff_of_false (by simp) (by omega)
  · exact iff_of_true rfl h2
  · exact iff_of_false (by simp) h2

lemma status_ready_iff (l : List StatusRow) :
    status l = Status.ready ↔ 0 < mandatoryTotal l ∧ providedYes l = mandatoryTotal l := by
  unfold status
  split_ifs with h1 h2
  · exact iff_of_true rfl h1
  · exact iff_of_false (by simp) h1
  · exact iff_of_false (by simp) h1

lemma status_pending_iff (l : List StatusRow) (p t : Nat) :
    status l = Status.pending p t ↔
      0 < mandatoryTotal l ∧ providedYes l < mandatoryTotal l ∧
        p = providedYes l ∧ t = mandatoryTotal l := by
  have hle := providedYes_le l
  unfold status
  split_ifs with h1 h2
  · refine iff_of_false (by simp) ?_
    rintro ⟨_, hlt, _, _⟩
    omega
  · refine iff_of_false (by simp) ?_
    rintro ⟨hpos, _, _, _⟩
    omega
  · have hpos : 0 < mandatoryTotal l := by omega
    have hlt : providedYes l < mandatoryTotal l := by
      rcases Nat.lt_or_ge (providedYes l) (mandatoryTotal l) with h | h
      · exact h
      · exact absurd ⟨hpos, by omega⟩ h1
    simp only [Status.pending.injEq]
    constructor
    · rintro ⟨ha, hb⟩
      exact ⟨hpos, hlt, ha.symm, hb.symm⟩
    · rintro ⟨_, _, ha, hb⟩
      exact ⟨ha.symm, hb.symm⟩

lemma countP_eq_countP_iff {α : Type} (p q : α → Bool) (l : List α)
    (himp : ∀ a, p a = true → q a = true) :
    l.countP p = l.countP q ↔ ∀ a ∈ l, q a = true → p a = true := by
  induction l with
  | nil => simp
  | cons x t ih =>
    have hle : t.countP p ≤ t.countP q := List.countP_mono_left (fun a _ => himp a)
    simp only [List.countP_cons, List.mem_cons, forall_eq_or_imp]
    cases hpx : p x <;> cases hqx : q x <;>
      simp only [Bool.false_eq_true, if_false, if_true, add_zero, IsEmpty.forall_iff,
        forall_const, true_and, false_implies, true_implies]
    · exact ih
    · constructor
      · intro h
        omega
      · rintro ⟨hfalse, _⟩
        exact hfalse.elim
    · exact absurd (himp x hpx) (by simp [hqx])
    · constructor
      · intro h
        exact ih.mp (by omega)
      · intro hall
        have := ih.mpr hall
        omega

lemma providedYes_eq_mandatoryTotal_iff (l : List StatusRow) :
    providedYes l = mandatoryTotal l ↔
      ∀ r ∈ l, r.mandatory = "Yes" → r.provided = true := by
  rw [providedYes, mandatoryTotal,
    countP_eq_countP_iff _ _ l (fun r h => (band_true h).2)]
  constructor
  · intro h r hr hm
    have := h r hr (by simp [hm])
    exact (band_true this).1
  · intro h r hr hq
    have hm : r.mandatory = "Yes" := by simpa using hq
    simp [h r hr hm, hq]

lemma sameUpTo_counts (a b : List StatusRow)
    (h : sameUpToConditionalProvided a b = true) :
    mandatoryTotal a = mandatoryTotal b ∧ providedYes a = providedYes b := by
  induction a generalizing b with
  | nil =>
    cases b with
    | nil => exact ⟨rfl, rfl⟩
    | cons y ys => exact absurd h Bool.false_ne_true
  | cons x xs ih =>
    cases b with
    | nil => exact absurd h Bool.false_ne_true
    | cons y ys =>
      simp only [sameUpToConditionalProvided, Bool.and_eq_true] at h
      obtain ⟨⟨hm, hp⟩, hrest⟩ := h
      obtain ⟨e1, e2⟩ := ih ys hrest
      have hmeq : x.mandatory = y.mandatory := by simpa using hm
      refine ⟨?_, ?_⟩
      · simp only [mandatoryTotal, List.countP_cons] at e1 ⊢
        rw [e1, hmeq]
      simp only [providedYes, List.countP_cons] at e2 ⊢
      rw [e2]
      congr 1
      rcases bor_true hp with hpe | hcond
      · have hpv : x.provided = y.provided := by simpa using hpe
        rw [hpv, hmeq]
      · have hc : x.mandatory = "Conditional" := by simpa using hcond
        have hyc : y.mandatory = "Conditional" := hmeq ▸ hc
        simp [hc, hyc]

lemma status_congr (a b : List StatusRow)
    (h1 : mandatoryTotal a = mandatoryTotal b)
    (h2 : providedYes a = providedYes b) : status a = status b := by
  unfold status
  rw [h1, h2]

lemma mandatoryTotal_filter_yes (l : List StatusRow) :
    mandatoryTotal (l.filter fun r => r.mandatory == "Yes") = mandatoryTotal l := by
  simp [mandatoryTotal, List.countP_filter]

lemma providedYes_filter_yes (l : List StatusRow) :
    providedYes (l.filter fun r => r.mandatory == "Yes") = providedYes l := by
  simp only [providedYes, List.countP_filter]
  congr 1
  funext r
  rw [Bool.and_assoc, Bool.and_self]

/-! ### Concrete facts about the rule store -/

set_option maxRecDepth 100000

lemma baseline_insurance_incoterm :
    ∀ d ∈ BASELINE_DOCS, d.document = "Insurance Certificate" →
      d.incoterm = "CIF/CIP or when risk transfers pre-delivery." := by decide

lemma baseline_td_modes :
    ∀ d ∈ BASELINE_DOCS, d.document = "Transport Document" →
      d.mode = "Air" ∨ d.mode = "Sea" ∨ d.mode = "Courier" := by decide

lemma master_row_labels :
    ∀ r ∈ master_dataframe,
      r.legalization =
          (if LEGALIZATION_NEEDED.contains r.country then "Likely" else "As requested") ∧
        r.riskFlag =
          (if SANCTIONS_COUNTRIES.contains r.country then "Sanctions/Export-Control Screen"
            else "None") := by
  intro r hr
  obtain ⟨c2, _, d, _, he⟩ := mem_master.mp hr
  rw [← he]
  exact ⟨rfl, rfl⟩

/-- Inside the block of one country, filtering with any concrete mode keeps
exactly one `"Transport Document"` row. -/
lemma countP_td_block (c i m co : String) (hm : m ∈ MODES) :
    ((countryBlock c).filter (rowMatches c i m co)).countP
        (fun r => r.document == "Transport Document") = 1 := by
  rw [List.countP_filter, countryBlock, List.countP_append, List.countP_map, List.countP_map]
  have hspec :
      List.countP
        ((fun r => (r.document == "Transport Document") && rowMatches c i m co r) ∘ mkRow c)
        (COUNTRY_SPECIFIC c) = 0 := by
    rw [List.countP_eq_zero]
    intro d hd
    have hname := (specific_doc_names c d hd).1
    simp [Function.comp, mkRow, hname]
  rw [hspec, add_zero]
  have hm3 : m = "Air" ∨ m = "Sea" ∨ m = "Courier" := by
    simp only [ MODES, List.mem_cons, List.not_mem_nil, or_false] at hm
    exact hm
  rcases hm3 with rfl | rfl | rfl <;>
    simp [Function.comp, BASELINE_DOCS, mkRow, rowMatches, List.countP_cons]

/-- The United Arab Emirates / DAP / Air / General Electronics scenario,
evaluated: seven baseline rows (the Insurance Certificate row is excluded by
its free-text incoterm field) followed by the two UAE-specific rows. -/
lemma uaeFiltered_eq :
    uaeFiltered =
      [mkRow "United Arab Emirates" ⟨"Commercial Invoice", "Yes", "Shipper", "Any", "Any", "Any", "Signed & stamped; English unless required otherwise."⟩,
       mkRow "United Arab Emirates" ⟨"Packing List", "Yes", "Shipper", "Any", "Any", "Any", "Itemized with qty, net/gross weight, dimensions."⟩,
       mkRow "United Arab Emirates" ⟨"Certificate of Origin (COO)", "Yes", "Shipper", "Any", "Any", "Any", "Chamber of Commerce stamped; legalization may be requested."⟩,
       mkRow "United Arab Emirates" ⟨"HS Codes Confirmed", "Yes", "Shipper", "Any", "Any", "Any", "Ensure correct 8–10 digit HS per line item."⟩,
       mkRow "United Arab Emirates" ⟨"Product Description & Model/PN", "Yes", "Shipper", "Any", "Any", "Any", "Must match invoice & PL exactly."⟩,
       mkRow "United Arab Emirates" ⟨"Export Declaration (origin)", "Yes", "Shipper", "Any", "Any", "Any", "EX1/SAD or origin equivalent."⟩,
       mkRow "United Arab Emirates" ⟨"Transport Document", "Yes", "Shipper", "Air", "Any", "Any", "AWB for Air/Courier."⟩,
       mkRow "United Arab Emirates" gccInvoiceAttested,
       mkRow "United Arab Emirates" gccCOOLegalized] := by decide

/-! ### The claims -/

/-- Claim C1: `computeStatus` is total and returns exactly one of three
mutually exclusive states: `NoMandatoryDocs` iff the count of mandatory
`"Yes"` rows is zero; `Ready` iff that count is positive and every mandatory
row is provided (provided count equals the total); `Pending(provided, total)`
otherwise, carrying the two counts; and on the empty sequence it returns
`NoMandatoryDocs`. -/
theorem c1_status_three_states (rows : List StatusRow) :
    (status rows = Status.noMandatoryDocs ↔ mandatoryTotal rows = 0) ∧
    (status rows = Status.ready ↔
      0 < mandatoryTotal rows ∧ providedYes rows = mandatoryTotal rows) ∧
    (∀ p t : Nat, status rows = Status.pending p t ↔
      0 < mandatoryTotal rows ∧ providedYes rows < mandatoryTotal rows ∧
        p = providedYes rows ∧ t = mandatoryTotal rows) ∧
    status ([] : List StatusRow) = Status.noMandatoryDocs :=
  ⟨status_noMandatory_iff rows, status_ready_iff rows, status_pending_iff rows, by decide⟩

/-- Claim C2: `filter_rows` returns exactly the ordered subsequence of input
rows satisfying the four-conjunct selection predicate (exact country match,
and `Any`-or-exact match on mode, commodity and incoterm). -/
theorem c2_filter_exact_subsequence (rows : List Row) (c i m co : String) :
    filter_rows rows c i m co =
      rows.filter (fun r => decide (r.country = c ∧ (r.mode = "Any" ∨ r.mode = m) ∧
        (r.commodity = "Any" ∨ r.commodity = co) ∧ (r.incoterm = "Any" ∨ r.incoterm = i))) ∧
    (filter_rows rows c i m co).Sublist rows := by
  constructor
  · rw [filter_rows]
    apply List.filter_congr
    intro r _
    rw [Bool.eq_iff_iff]
    simp only [rowMatches, Bool.and_eq_true, Bool.or_eq_true, beq_iff_eq,
      decide_eq_true_iff, and_assoc]
  · exact List.filter_sublist rows

/-- Claim C3: the canonical country list is the lexicographically sorted,
duplicate-free union of the Middle East and Africa groups, and
`master_dataframe` is the country-major materialization: per country, the
baseline requirements then the country-specific ones, so each country
contributes exactly `|baseline| + |country-specific|` rows. -/
theorem c3_materialize_order_counts :
    ALL_COUNTRIES.Pairwise (fun a b => strLt a b = true) ∧
    ALL_COUNTRIES.Nodup ∧
    (∀ s : String, s ∈ ALL_COUNTRIES ↔ s ∈ MIDDLE_EAST ∨ s ∈ AFRICA) ∧
    master_dataframe =
      (ALL_COUNTRIES.flatMap fun c => (BASELINE_DOCS ++ COUNTRY_SPECIFIC c).map (mkRow c)) ∧
    (∀ c ∈ ALL_COUNTRIES,
      master_dataframe.countP (fun r => r.country == c) =
        BASELINE_DOCS.length + (COUNTRY_SPECIFIC c).length) := by
  refine ⟨allCountries_pairwise, allCountries_nodup, mem_allCountries, ?_, ?_⟩
  · rw [master_dataframe]
    apply congrArg
    funext c
    rw [countryBlock, List.map_append]
  · intro c hc
    rw [List.countP_eq_length_filter, master_dataframe,
      filter_blocks (fun r => r.country == c) c (fun r h => by simpa using h)
        ALL_COUNTRIES allCountries_nodup hc]
    have hall : ∀ r ∈ countryBlock c, (r.country == c) = true := by
      intro r hr
      simp [countryBlock_country hr]
    rw [List.filter_eq_self.mpr hall, countryBlock, List.length_append, List.length_map,
      List.length_map]

/-- Claim C3, witness: instantiated at the United Arab Emirates. -/
theorem c3_materialize_witness :
    master_dataframe.countP (fun r => r.country == "United Arab Emirates") =
      BASELINE_DOCS.length + (COUNTRY_SPECIFIC "United Arab Emirates").length :=
  c3_materialize_order_counts.2.2.2.2 "United Arab Emirates" (by decide)

/-- Claim C4: the claim asserts every rule-store entry draws its incoterm
field from the enumeration `{Any} ∪ INCOTERMS`; the code violates it: the
`"Insurance Certificate"` baseline entry carries free text in that field, so
the row can never pass the incoterm conjunct of the filter. -/
theorem c4_insurance_incoterm_outside_enum :
    insuranceDoc ∈ BASELINE_DOCS ∧
    insuranceDoc.incoterm = "CIF/CIP or when risk transfers pre-delivery." ∧
    insuranceDoc.incoterm ∉ "Any" :: INCOTERMS := by decide

/-- Claim C5: `computeStatus` ignores the `provided` flag of rows whose
mandatory value is `"Conditional"`: the status is a function of the
mandatory-`"Yes"` rows alone, and two row sequences that differ only in
provided flags of `"Conditional"` rows get the same status. -/
theorem c5_conditional_rows_no_status_effect (a b : List StatusRow) :
    status a = status (a.filter fun r => r.mandatory == "Yes") ∧
    (sameUpToConditionalProvided a b = true → status a = status b) := by
  constructor
  · exact status_congr _ _ (mandatoryTotal_filter_yes a).symm (providedYes_filter_yes a).symm
  · intro h
    obtain ⟨h1, h2⟩ := sameUpTo_counts a b h
    exact status_congr a b h1 h2

/-- Claim C5, witness: flipping the provided flag of a `"Conditional"` row
leaves the status unchanged. -/
theorem c5_conditional_witness :
    status [StatusRow.mk "Yes" true, StatusRow.mk "Conditional" false] =
      status [StatusRow.mk "Yes" true, StatusRow.mk "Conditional" true] :=
  (c5_conditional_rows_no_status_effect
    [StatusRow.mk "Yes" true, StatusRow.mk "Conditional" false]
    [StatusRow.mk "Yes" true, StatusRow.mk "Conditional" true]).2 (by decide)

/-- Claim C6, counterexample: the claim asserts the UAE/DAP/Air/General
Electronics output includes every baseline row whose mode is Any-or-Air and
whose commodity is Any-or-General Electronics; the Insurance Certificate
entry satisfies both conditions yet its resolved row is not in the output
(its free-text incoterm field fails the incoterm conjunct). -/
theorem c6_insurance_clause_counterexample :
    insuranceDoc ∈ BASELINE_DOCS ∧
    (insuranceDoc.mode = "Any" ∨ insuranceDoc.mode = "Air") ∧
    (insuranceDoc.commodity = "Any" ∨ insuranceDoc.commodity = "General Electronics") ∧
    mkRow "United Arab Emirates" insuranceDoc ∉ uaeFiltered := by
  refine ⟨by decide, by decide, by decide, ?_⟩
  rw [uaeFiltered_eq]
  decide

/-- Claim C6 as amended: for the UAE/DAP/Air/General Electronics selection,
the output includes every baseline row whose mode is Any-or-Air, commodity
Any-or-General Electronics AND incoterm Any-or-DAP, plus the two
UAE-specific rows (Commercial Invoice (Attested), mandatory Yes; COO
(Legalized), mandatory Conditional); exactly 8 rows are mandatory Yes (the
named eight), and the status is Ready iff all 8 are marked provided. -/
theorem c6_uae_scenario_amended :
    (∀ d ∈ BASELINE_DOCS,
        (d.mode = "Any" ∨ d.mode = "Air") →
        (d.commodity = "Any" ∨ d.commodity = "General Electronics") →
        (d.incoterm = "Any" ∨ d.incoterm = "DAP") →
        mkRow "United Arab Emirates" d ∈ uaeFiltered) ∧
    mkRow "United Arab Emirates" gccInvoiceAttested ∈ uaeFiltered ∧
    gccInvoiceAttested.mandatory = "Yes" ∧
    mkRow "United Arab Emirates" gccCOOLegalized ∈ uaeFiltered ∧
    gccCOOLegalized.mandatory = "Conditional" ∧
    uaeFiltered.countP (fun r => r.mandatory == "Yes") = 8 ∧
    (uaeFiltered.filter (fun r => r.mandatory == "Yes")).map (fun r => r.document) =
      ["Commercial Invoice", "Packing List", "Certificate of Origin (COO)",
       "HS Codes Confirmed", "Product Description & Model/PN", "Export Declaration (origin)",
       "Transport Document", "Commercial Invoice (Attested)"] ∧
    (∀ f : Row → Bool,
      status (uaeFiltered.map fun r => StatusRow.mk r.mandatory (f r)) = Status.ready ↔
        ∀ r ∈ uaeFiltered, r.mandatory = "Yes" → f r = true) := by
  rw [uaeFiltered_eq]
  refine ⟨by decide, by decide, by decide, by decide, by decide, by decide, by decide, ?_⟩
  intro f
  rw [status_ready_iff, providedYes_eq_mandatoryTotal_iff]
  constructor
  · rintro ⟨-, hall⟩ r hr hm2
    exact hall (StatusRow.mk r.mandatory (f r)) (List.mem_map.mpr ⟨r, hr, rfl⟩) hm2
  · intro hall
    refine ⟨?_, ?_⟩
    · rw [mandatoryTotal, List.countP_map]
      rw [show ((fun s : StatusRow => s.mandatory == "Yes") ∘
          (fun r : Row => StatusRow.mk r.mandatory (f r))) =
          (fun r : Row => r.mandatory == "Yes") from rfl]
      decide
    · intro s hs hsm
      obtain ⟨r, hr, rfl⟩ := List.mem_map.mp hs
      exact hall r hr hsm

/-- Claim C6, witness: the Commercial Invoice baseline row is in the UAE
scenario output. -/
theorem c6_uae_scenario_witness :
    mkRow "United Arab Emirates"
        ⟨"Commercial Invoice", "Yes", "Shipper", "Any", "Any", "Any",
          "Signed & stamped; English unless required otherwise."⟩ ∈ uaeFiltered :=
  c6_uae_scenario_amended.1 _ (by decide) (Or.inl rfl) (Or.inl rfl) (Or.inl rfl)

/-- Claim C7: legalization and sanctions labels are functions of the country
alone, hence uniform across all rows of one country; every Iran row carries
the sanctions flag, and every Kenya row carries risk flag `"None"` and
legalization `"As requested"`. -/
theorem c7_country_labels_uniform :
    ∀ r ∈ master_dataframe, ∀ r2 ∈ master_dataframe,
      (r.country = r2.country →
        r.legalization = r2.legalization ∧ r.riskFlag = r2.riskFlag) ∧
      (r.country = "Iran" → r.riskFlag = "Sanctions/Export-Control Screen") ∧
      (r.country = "Kenya" → r.riskFlag = "None" ∧ r.legalization = "As requested") := by
  intro r hr r2 hr2
  obtain ⟨hl1, hf1⟩ := master_row_labels r hr
  obtain ⟨hl2, hf2⟩ := master_row_labels r2 hr2
  refine ⟨?_, ?_, ?_⟩
  · intro hcc
    rw [hl1, hl2, hf1, hf2, hcc]
    exact ⟨rfl, rfl⟩
  · intro hIran
    rw [hf1, hIran]
    decide
  · intro hKenya
    rw [hf1, hl1, hKenya]
    exact ⟨by decide, by decide⟩

/-- Claim C7, witness: the first Iran row carries the sanctions flag. -/
theorem c7_country_labels_witness :
    (mkRow "Iran"
        ⟨"Commercial Invoice", "Yes", "Shipper", "Any", "Any", "Any",
          "Signed & stamped; English unless required otherwise."⟩).riskFlag =
      "Sanctions/Export-Control Screen" :=
  (c7_country_labels_uniform
    (mkRow "Iran"
      ⟨"Commercial Invoice", "Yes", "Shipper", "Any", "Any", "Any",
        "Signed & stamped; English unless required otherwise."⟩) (by decide)
    (mkRow "Iran"
      ⟨"Commercial Invoice", "Yes", "Shipper", "Any", "Any", "Any",
        "Signed & stamped; English unless required otherwise."⟩) (by decide)).2.1 rfl

/-- Claim C8: `filter_rows` is idempotent for any fixed selection. -/
theorem c8_filter_idempotent (rows : List Row) (c i m co : String) :
    filter_rows (filter_rows rows c i m co) c i m co = filter_rows rows c i m co := by
  simp only [filter_rows]
  rw [List.filter_filter]
  apply List.filter_congr
  intro r _
  rw [Bool.and_self]

/-- Claim C9: for every canonical country and every selection whose incoterm
is one of the ten defined incoterms, no `"Insurance Certificate"` row appears
in the filtered output: its incoterm field holds free text equal neither to
`"Any"` nor to any defined incoterm. -/
theorem c9_insurance_never_filtered (c i m co : String)
    (hc : c ∈ ALL_COUNTRIES) (hi : i ∈ INCOTERMS) :
    ∀ r ∈ filter_rows master_dataframe c i m co,
      r.document ≠ "Insurance Certificate" := by
  intro r hr hdoc
  have hmem := List.mem_of_mem_filter hr
  have hmatch := (List.mem_filter.mp hr).2
  obtain ⟨c2, hc2, d, hd, he⟩ := mem_master.mp hmem
  have hdocd : d.document = "Insurance Certificate" := by
    rw [← he] at hdoc
    exact hdoc
  have hdbase : d ∈ BASELINE_DOCS := by
    rcases List.mem_append.mp hd with hb | hs
    · exact hb
    · exact absurd hdocd (specific_doc_names c2 d hs).2
  have hinc : d.incoterm = "CIF/CIP or when risk transfers pre-delivery." :=
    baseline_insurance_incoterm d hdbase hdocd
  have hrinc : r.incoterm = d.incoterm := by
    rw [← he]
    rfl
  have hconj := (band_true hmatch).2
  rcases bor_true hconj with hany | hexact
  · have h2 : r.incoterm = "Any" := by simpa using hany
    rw [hrinc, hinc] at h2
    exact absurd h2 (by decide)
  · have h2 : r.incoterm = i := by simpa using hexact
    rw [hrinc, hinc] at h2
    rw [← h2] at hi
    exact absurd hi (by decide)

/-- Claim C9, witness: a row of the Kenya/FOB/Sea/Other output, which is not
the Insurance Certificate. -/
theorem c9_insurance_witness :
    (mkRow "Kenya"
        ⟨"Commercial Invoice", "Yes", "Shipper", "Any", "Any", "Any",
          "Signed & stamped; English unless required otherwise."⟩).document ≠
      "Insurance Certificate" :=
  c9_insurance_never_filtered "Kenya" "FOB" "Sea" "Other" (by decide) (by decide) _ (by decide)

/-- Claim C10: for every canonical country and every concrete selection, the
filtered output contains exactly one `"Transport Document"` row, namely the
baseline entry whose mode field equals the selected mode. -/
theorem c10_unique_transport_document (c i m co : String)
    (hc : c ∈ ALL_COUNTRIES) (hm : m ∈ MODES) (hi : i ∈ INCOTERMS) (hco : co ∈ COMMODITIES) :
    (filter_rows master_dataframe c i m co).countP
        (fun r => r.document == "Transport Document") = 1 ∧
    ∀ r ∈ filter_rows master_dataframe c i m co, r.document = "Transport Document" →
      r.mode = m ∧ ∃ d ∈ BASELINE_DOCS, d.mode = m ∧ mkRow c d = r := by
  constructor
  · rw [filter_rows_master c i m co hc]
    exact countP_td_block c i m co hm
  · intro r hr hdoc
    have hmem := List.mem_of_mem_filter hr
    have hmatch := (List.mem_filter.mp hr).2
    obtain ⟨c2, hc2, d, hd, he⟩ := mem_master.mp hmem
    have hdocd : d.document = "Transport Document" := by
      rw [← he] at hdoc
      exact hdoc
    have hdbase : d ∈ BASELINE_DOCS := by
      rcases List.mem_append.mp hd with hb | hs
      · exact hb
      · exact absurd hdocd (specific_doc_names c2 d hs).1
    have hmodes := baseline_td_modes d hdbase hdocd
    have hmode := (band_true (band_true (band_true hmatch).1).1).2
    have hrmoded : r.mode = d.mode := by
      rw [← he]
      rfl
    have hmodeval : r.mode = m := by
      rcases bor_true hmode with hany | hexact
      · have h2 : r.mode = "Any" := by simpa using hany
        rw [hrmoded] at h2
        rcases hmodes with h1 | h1 | h1 <;> rw [h1] at h2 <;> exact absurd h2 (by decide)
      · simpa using hexact
    have hcountry : r.country = c := rowMatches_country hmatch
    have hc2c : c2 = c := by
      rw [← he] at hcountry
      exact hcountry
    refine ⟨hmodeval, d, hdbase, ?_, ?_⟩
    · rw [← hrmoded]
      exact hmodeval
    · rw [hc2c] at he
      exact he

/-- Claim C10, witness: the Kenya/FOB/Sea/Other output has exactly one
Transport Document row. -/
theorem c10_unique_transport_witness :
    (filter_rows master_dataframe "Kenya" "FOB" "Sea" "Other").countP
        (fun r => r.document == "Transport Document") = 1 :=
  (c10_unique_transport_document "Kenya" "FOB" "Sea" "Other"
    (by decide) (by decide) (by decide) (by decide)).1

end MEA
